import Mathlib

/-!
Verification of the EPID Type-C PID controller library (`src/pid.c`,
`src/pid.h`) against its specification.

Embedding conventions:
* C `float` values are modelled by `EF`: either NaN or an exact rational.
  IEEE-754 rounding and infinities are abstracted away (arithmetic is exact);
  NaN propagation through arithmetic and the "all ordered comparisons with
  NaN are false" semantics are kept, since the library's guards
  (`isfinite`, `isnan`, the rollback in the summation steps) depend on them.
* The compile-time feature switch `EPID_FEATURE_VALID_FLT` becomes an
  explicit boolean argument `validFlt` (in the shipped header the switch is
  on).  A possibly-NULL context pointer becomes the boolean `ctxNull`; the
  returned context models the post-call memory of `*ctx` (unchanged when the
  C code returns before writing).
* Functions returning `epid_info_t` return a pair of the info code and the
  new context; `void` functions return the new context.
-/

/-- Model of a C `float` value: NaN, or an exact finite rational.
Infinities and rounding are abstracted (see header comment).  Arithmetic
propagates NaN; ordered comparisons involving NaN are `false`, as in
IEEE-754. -/
inductive EF where
  | nan : EF
  | fin : ℚ → EF
deriving DecidableEq

namespace EF

/-- IEEE addition on the model: NaN-propagating exact rational addition. -/
def add : EF → EF → EF
  | fin a, fin b => fin (a + b)
  | _, _ => nan

/-- IEEE subtraction on the model. -/
def sub : EF → EF → EF
  | fin a, fin b => fin (a - b)
  | _, _ => nan

/-- IEEE multiplication on the model. -/
def mul : EF → EF → EF
  | fin a, fin b => fin (a * b)
  | _, _ => nan

/-- IEEE division on the model.  Division by zero is mapped to NaN (the
library never divides by a value that passed its positivity checks, so the
distinction with signed infinity is unreachable in the verified paths). -/
def div : EF → EF → EF
  | fin a, fin b => if b = 0 then nan else fin (a / b)
  | _, _ => nan

instance : Add EF := ⟨add⟩
instance : Sub EF := ⟨sub⟩
instance : Mul EF := ⟨mul⟩
instance : Div EF := ⟨div⟩

/-- C `<` on floats: false whenever an operand is NaN. -/
def lt : EF → EF → Bool
  | fin a, fin b => decide (a < b)
  | _, _ => false

/-- C `<=` on floats: false whenever an operand is NaN. -/
def le : EF → EF → Bool
  | fin a, fin b => decide (a ≤ b)
  | _, _ => false

/-- `isnan()` from `<math.h>`. -/
def isNan : EF → Bool
  | nan => true
  | fin _ => false

/-- `isfinite()` from `<math.h>` (in this model every non-NaN value is
finite). -/
def isFinite : EF → Bool
  | nan => false
  | fin _ => true

end EF

/-- `#define EPID_FP_ZERO 0.0f` -/
def EPID_FP_ZERO : EF := EF.fin 0

/-- `#define EPID_FP_ONE 1.0f` -/
def EPID_FP_ONE : EF := EF.fin 1

/-- `epid_info_t` is an unsigned integer type. -/
abbrev epid_info_t := Nat

/-- `#define EPID_ERR_INIT (0U)` : bad initialization. -/
def EPID_ERR_INIT : epid_info_t := 0

/-- `#define EPID_ERR_FLT (1U)` : floating-point error. -/
def EPID_ERR_FLT : epid_info_t := 1

/-- `#define EPID_ERR_NONE (2U)` : no error detected. -/
def EPID_ERR_NONE : epid_info_t := 2

/-- The controller context `epid_t` from `pid.h`. -/
structure epid_t where
  kp : EF
  ki : EF
  kd : EF
  xk_1 : EF
  xk_2 : EF
  p_term : EF
  i_term : EF
  d_term : EF
  y_out : EF
deriving DecidableEq

/-- The low-pass-filter context `epid_lpf_t` from `pid.h`. -/
structure epid_lpf_t where
  smoothing_factor : EF
  y : EF
deriving DecidableEq

/-- `epid_init` from `pid.c`: validate (optional finiteness gate, then
NULL/gain checks `kp <= 0 || ki <= 0 || kd < 0`), then copy the six inputs
into the context. -/
def epid_init (validFlt ctxNull : Bool) (ctx : epid_t)
    (xk_1 xk_2 y_previous kp ki kd : EF) : epid_info_t × epid_t :=
  if validFlt && (!xk_1.isFinite || !xk_2.isFinite || !y_previous.isFinite
      || !kp.isFinite || !ki.isFinite || !kd.isFinite) then
    (EPID_ERR_FLT, ctx)
  else if ctxNull || kp.le EPID_FP_ZERO || ki.le EPID_FP_ZERO
      || kd.lt EPID_FP_ZERO then
    (EPID_ERR_INIT, ctx)
  else
    (EPID_ERR_NONE,
      { ctx with
        xk_1 := xk_1, xk_2 := xk_2, y_out := y_previous,
        kp := kp, ki := ki, kd := kd })

/-- `epid_init_T` from `pid.c`: validate `ti`/`td`/`sample_period`, derive
`ki = (kp * sample_period) / ti` and `kd = kp * (td / sample_period)`, then
delegate to `epid_init`. -/
def epid_init_T (validFlt ctxNull : Bool) (ctx : epid_t)
    (xk_1 xk_2 y_previous kp ti td sample_period : EF) :
    epid_info_t × epid_t :=
  if validFlt && (!ti.isFinite || !sample_period.isFinite) then
    (EPID_ERR_FLT, ctx)
  else if ti.le EPID_FP_ZERO || td.lt EPID_FP_ZERO
      || sample_period.le EPID_FP_ZERO then
    (EPID_ERR_INIT, ctx)
  else
    epid_init validFlt ctxNull ctx xk_1 xk_2 y_previous
      kp ((kp * sample_period) / ti) (kp * (td / sample_period))

/-- `epid_pi_calc` from `pid.c`. -/
def epid_pi_calc (ctx : epid_t) (setpoint measure : EF) : epid_t :=
  { ctx with
    p_term := ctx.kp * (ctx.xk_1 - measure),
    i_term := ctx.ki * (setpoint - measure),
    xk_1 := measure }

/-- `epid_pid_calc` from `pid.c`.  The C code stores `xk_1 - measure` into
`p_term` first and reuses it for the D-term (`p0` below), then overwrites
`p_term` with `kp * p0`. -/
def epid_pid_calc (ctx : epid_t) (setpoint measure : EF) : epid_t :=
  let p0 := ctx.xk_1 - measure
  { ctx with
    p_term := ctx.kp * p0,
    d_term := ctx.kd * (ctx.xk_1 + p0 - ctx.xk_2),
    i_term := ctx.ki * (setpoint - measure),
    xk_2 := ctx.xk_1,
    xk_1 := measure }

/-- The clamp pattern repeated verbatim in `epid_pi_sum`, `epid_pid_sum` and
`epid_util_ilim`: `if (v > hi) v = hi; else if (v < lo) v = lo;`. -/
def epid_limit (v lo hi : EF) : EF :=
  if hi.lt v then hi else if v.lt lo then lo else v

/-- The value of `ctx->y_out` in `epid_pi_sum` after the accumulation
`y_out += p_term + i_term` and the optional NaN rollback, before the clamp. -/
def epid_pi_acc (validFlt : Bool) (ctx : epid_t) : EF :=
  let y1 := ctx.y_out + (ctx.p_term + ctx.i_term)
  if validFlt && (y1.isNan || ctx.p_term.isNan || ctx.i_term.isNan) then
    ctx.y_out
  else y1

/-- `epid_pi_sum` from `pid.c`: accumulate, NaN-guard, clamp into
`[out_min, out_max]`. -/
def epid_pi_sum (validFlt : Bool) (ctx : epid_t) (out_min out_max : EF) :
    epid_t :=
  { ctx with y_out := epid_limit (epid_pi_acc validFlt ctx) out_min out_max }

/-- The value of `ctx->y_out` in `epid_pid_sum` after the accumulation
`y_out += p_term + i_term + d_term` and the optional NaN rollback, before
the clamp. -/
def epid_pid_acc (validFlt : Bool) (ctx : epid_t) : EF :=
  let y1 := ctx.y_out + (ctx.p_term + ctx.i_term + ctx.d_term)
  if validFlt && (y1.isNan || ctx.p_term.isNan || ctx.i_term.isNan
      || ctx.d_term.isNan) then
    ctx.y_out
  else y1

/-- `epid_pid_sum` from `pid.c`: accumulate (with the D-term), NaN-guard,
clamp into `[out_min, out_max]`. -/
def epid_pid_sum (validFlt : Bool) (ctx : epid_t) (out_min out_max : EF) :
    epid_t :=
  { ctx with y_out := epid_limit (epid_pid_acc validFlt ctx) out_min out_max }

/-- `epid_util_ilim` from `pid.c`: clamp the I-term into `[i_min, i_max]`. -/
def epid_util_ilim (ctx : epid_t) (i_min i_max : EF) : epid_t :=
  { ctx with i_term := epid_limit ctx.i_term i_min i_max }

/-- `epid_util_lpf_init` from `pid.c`: validate (optional finiteness gate,
then NULL / `smoothing_factor <= 0 || smoothing_factor >= 1`), then set the
factor and the scaled seed `y = smoothing_factor * x_0`. -/
def epid_util_lpf_init (validFlt ctxNull : Bool) (ctx : epid_lpf_t)
    (smoothing_factor x_0 : EF) : epid_info_t × epid_lpf_t :=
  if validFlt && (!smoothing_factor.isFinite || !x_0.isFinite) then
    (EPID_ERR_FLT, ctx)
  else if ctxNull || smoothing_factor.le EPID_FP_ZERO
      || EPID_FP_ONE.le smoothing_factor then
    (EPID_ERR_INIT, ctx)
  else
    (EPID_ERR_NONE,
      { smoothing_factor := smoothing_factor, y := smoothing_factor * x_0 })

/-- `epid_util_lpf_calc` from `pid.c`:
`y = y_prev + smoothing_factor * (input - y_prev)`. -/
def epid_util_lpf_calc (ctx : epid_lpf_t) (input : EF) : epid_lpf_t :=
  { ctx with y := ctx.y + ctx.smoothing_factor * (input - ctx.y) }

/-- A concrete context used to instantiate theorems at specific inputs. -/
def ctx0 : epid_t :=
  { kp := EF.fin 0, ki := EF.fin 0, kd := EF.fin 0,
    xk_1 := EF.fin 0, xk_2 := EF.fin 0,
    p_term := EF.fin 0, i_term := EF.fin 0, d_term := EF.fin 0,
    y_out := EF.fin 0 }

/-- A concrete low-pass-filter context used to instantiate theorems. -/
def lpf0 : epid_lpf_t := { smoothing_factor := EF.fin 0, y := EF.fin 0 }

/-! ## Helper lemmas -/

lemma EF.of_le_true {x y : EF} (h : EF.le x y = true) :
    ∃ a b, x = EF.fin a ∧ y = EF.fin b ∧ a ≤ b := by
  cases x with
  | nan => simp [EF.le] at h
  | fin a =>
    cases y with
    | nan => simp [EF.le] at h
    | fin b =>
      simp [EF.le] at h
      exact ⟨a, b, rfl, rfl, h⟩

lemma epid_limit_mem (y lo hi : ℚ) (h : lo ≤ hi) :
    EF.le (EF.fin lo) (epid_limit (EF.fin y) (EF.fin lo) (EF.fin hi)) = true
    ∧ EF.le (epid_limit (EF.fin y) (EF.fin lo) (EF.fin hi)) (EF.fin hi)
        = true := by
  unfold epid_limit
  by_cases h1 : hi < y
  · simp [EF.lt, EF.le, h1, h]
  · by_cases h2 : y < lo
    · simp [EF.lt, EF.le, h1, h2, h]
    · simp [EF.lt, EF.le, h1, h2, le_of_not_lt h1, le_of_not_lt h2]

lemma epid_limit_id (y lo hi : ℚ) (h1 : lo ≤ y) (h2 : y ≤ hi) :
    epid_limit (EF.fin y) (EF.fin lo) (EF.fin hi) = EF.fin y := by
  unfold epid_limit
  simp [EF.lt, not_lt.mpr h1, not_lt.mpr h2]

/-! ## Claims about `epid_init` -/

/-- C1 (counterexample): `kp = 0` with `ki = 1`, `kd = 1`, all seeds finite
and a non-null context satisfies the claim's hypotheses (`kp ≥ 0`,
`ki ≥ 0`, `kd ≥ 0`), yet `epid_init` does not return the success
indicator. -/
theorem epid_init_zero_kp_not_success :
    (epid_init true false ctx0 (EF.fin 0) (EF.fin 0) (EF.fin 0)
        (EF.fin 0) (EF.fin 1) (EF.fin 1)).1 ≠ EPID_ERR_NONE := by
  decide

/-- C1 (amended): for finite inputs with `kp > 0`, `ki > 0`, `kd ≥ 0` and a
non-null context, `epid_init` returns `EPID_ERR_NONE` and the context fields
`kp`, `ki`, `kd`, `xk_1`, `xk_2`, `y_out` exactly equal the supplied inputs
(the term fields are untouched). -/
theorem epid_init_success_fields (v : Bool) (ctx : epid_t)
    (x1 x2 yp kp ki kd : ℚ)
    (hkp : 0 < kp) (hki : 0 < ki) (hkd : 0 ≤ kd) :
    epid_init v false ctx (EF.fin x1) (EF.fin x2) (EF.fin yp)
        (EF.fin kp) (EF.fin ki) (EF.fin kd)
      = (EPID_ERR_NONE,
          { ctx with
            xk_1 := EF.fin x1, xk_2 := EF.fin x2, y_out := EF.fin yp,
            kp := EF.fin kp, ki := EF.fin ki, kd := EF.fin kd }) := by
  simp [epid_init, EF.isFinite, EF.le, EF.lt, EPID_FP_ZERO,
    not_le.mpr hkp, not_le.mpr hki, not_lt.mpr hkd]

/-- C1 (witness): the amended theorem at concrete inputs. -/
theorem epid_init_success_fields_witness :
    epid_init true false ctx0 (EF.fin 1) (EF.fin 2) (EF.fin 3)
        (EF.fin 1) (EF.fin 1) (EF.fin 0)
      = (EPID_ERR_NONE,
          { ctx0 with
            xk_1 := EF.fin 1, xk_2 := EF.fin 2, y_out := EF.fin 3,
            kp := EF.fin 1, ki := EF.fin 1, kd := EF.fin 0 }) :=
  epid_init_success_fields true ctx0 1 2 3 1 1 0
    (by norm_num) (by norm_num) (by norm_num)

/-- C5: for finite inputs with `kp < 0`, `ki < 0` or `kd < 0`, `epid_init`
returns `EPID_ERR_INIT` (never success) and leaves every field of the
context exactly as it was. -/
theorem epid_init_negative_gain_error (v n : Bool) (ctx : epid_t)
    (x1 x2 yp kp ki kd : ℚ) (h : kp < 0 ∨ ki < 0 ∨ kd < 0) :
    epid_init v n ctx (EF.fin x1) (EF.fin x2) (EF.fin yp)
        (EF.fin kp) (EF.fin ki) (EF.fin kd) = (EPID_ERR_INIT, ctx) := by
  rcases h with h | h | h
  · simp [epid_init, EF.isFinite, EF.le, EPID_FP_ZERO, h.le]
  · simp [epid_init, EF.isFinite, EF.le, EPID_FP_ZERO, h.le]
  · simp [epid_init, EF.isFinite, EF.lt, EPID_FP_ZERO, h]

/-- C5 (witness): the theorem at concrete inputs (`kp = -1`). -/
theorem epid_init_negative_gain_error_witness :
    epid_init true false ctx0 (EF.fin 0) (EF.fin 0) (EF.fin 0)
        (EF.fin (-1)) (EF.fin 1) (EF.fin 0) = (EPID_ERR_INIT, ctx0) :=
  epid_init_negative_gain_error true false ctx0 0 0 0 (-1) 1 0
    (Or.inl (by norm_num))

/-- C10: whenever the optional finiteness gate does not fire, `epid_init`
returns `EPID_ERR_INIT` exactly when the context pointer is null or
`kp ≤ 0` or `ki ≤ 0` or `kd < 0` (so zero `kp`/`ki` is rejected while
`kd = 0` is accepted). -/
theorem epid_init_reject_iff (v n : Bool) (ctx : epid_t)
    (x1 x2 yp kp ki kd : EF)
    (hgate : (v && (!x1.isFinite || !x2.isFinite || !yp.isFinite
        || !kp.isFinite || !ki.isFinite || !kd.isFinite)) = false) :
    (epid_init v n ctx x1 x2 yp kp ki kd).1 = EPID_ERR_INIT
      ↔ (n = true ∨ kp.le EPID_FP_ZERO = true ∨ ki.le EPID_FP_ZERO = true
          ∨ kd.lt EPID_FP_ZERO = true) := by
  cases n <;> cases h1 : kp.le EPID_FP_ZERO <;>
    cases h2 : ki.le EPID_FP_ZERO <;> cases h3 : kd.lt EPID_FP_ZERO <;>
    simp [epid_init, hgate, h1, h2, h3, EPID_ERR_INIT, EPID_ERR_NONE]

/-- C10 (witness): with the gate off, `kp = 0` is rejected with
`EPID_ERR_INIT`. -/
theorem epid_init_reject_iff_witness :
    (epid_init false false ctx0 (EF.fin 0) (EF.fin 0) (EF.fin 0)
        (EF.fin 0) (EF.fin 1) (EF.fin 1)).1 = EPID_ERR_INIT :=
  (epid_init_reject_iff false false ctx0 (EF.fin 0) (EF.fin 0) (EF.fin 0)
      (EF.fin 0) (EF.fin 1) (EF.fin 1) rfl).mpr
    (Or.inr (Or.inl (by decide)))

/-! ## Arithmetic simp lemmas for `EF` -/

namespace EF

@[simp] lemma add_def (a b : ℚ) : fin a + fin b = fin (a + b) := rfl
@[simp] lemma nan_add (x : EF) : nan + x = nan := rfl
@[simp] lemma add_nan (x : EF) : x + nan = nan := by cases x <;> rfl
@[simp] lemma sub_def (a b : ℚ) : fin a - fin b = fin (a - b) := rfl
@[simp] lemma nan_sub (x : EF) : nan - x = nan := rfl
@[simp] lemma sub_nan (x : EF) : x - nan = nan := by cases x <;> rfl
@[simp] lemma mul_def (a b : ℚ) : fin a * fin b = fin (a * b) := rfl
@[simp] lemma nan_mul (x : EF) : nan * x = nan := rfl
@[simp] lemma mul_nan (x : EF) : x * nan = nan := by cases x <;> rfl
@[simp] lemma div_def (a b : ℚ) :
    fin a / fin b = if b = 0 then nan else fin (a / b) := rfl
@[simp] lemma isNan_nan : (nan : EF).isNan = true := rfl
@[simp] lemma isNan_fin (a : ℚ) : (fin a).isNan = false := rfl
@[simp] lemma isFinite_nan : (nan : EF).isFinite = false := rfl
@[simp] lemma isFinite_fin (a : ℚ) : (fin a).isFinite = true := rfl
@[simp] lemma lt_fin_fin (a b : ℚ) : lt (fin a) (fin b) = decide (a < b) := rfl
@[simp] lemma le_fin_fin (a b : ℚ) : le (fin a) (fin b) = decide (a ≤ b) := rfl
@[simp] lemma lt_nan_left (x : EF) : lt nan x = false := rfl
@[simp] lemma lt_nan_right (x : EF) : lt x nan = false := by cases x <;> rfl
@[simp] lemma le_nan_left (x : EF) : le nan x = false := rfl
@[simp] lemma le_nan_right (x : EF) : le x nan = false := by cases x <;> rfl

/-- The D-term expression actually computed by `epid_pid_calc`
(`xk_1 + p0 - xk_2` with `p0 = xk_1 - measure`) equals the specified
`2*xk_1 - xk_2 - measure`, NaN cases included. -/
lemma dterm_eq (x b m : EF) : x + (x - m) - b = fin 2 * x - b - m := by
  cases x <;> cases b <;> cases m <;> simp
  ring_nf

end EF

/-! ## Claims about the term-calculation step -/

/-- C3: `epid_pid_calc` sets `p_term = kp * (xk_1 - measure)`,
`i_term = ki * (setpoint - measure)` and
`d_term = kd * (2*xk_1 - xk_2 - measure)` using the pre-shift history, then
shifts `xk_2 ← xk_1`, `xk_1 ← measure`; every other field (`y_out` and the
gains in particular) is unchanged. -/
theorem epid_pid_calc_terms (ctx : epid_t) (setpoint measure : EF) :
    epid_pid_calc ctx setpoint measure
      = { ctx with
          p_term := ctx.kp * (ctx.xk_1 - measure),
          i_term := ctx.ki * (setpoint - measure),
          d_term := ctx.kd * (EF.fin 2 * ctx.xk_1 - ctx.xk_2 - measure),
          xk_2 := ctx.xk_1,
          xk_1 := measure } := by
  simp only [epid_pid_calc]
  rw [EF.dterm_eq ctx.xk_1 ctx.xk_2 measure]

/-- C8: two `epid_pid_calc` runs from the same state with the same measure
but (possibly) different setpoints agree on every field except `i_term`. -/
theorem epid_pid_calc_setpoint_only_i (ctx : epid_t) (sp1 sp2 measure : EF) :
    (epid_pid_calc ctx sp1 measure).p_term
        = (epid_pid_calc ctx sp2 measure).p_term
    ∧ (epid_pid_calc ctx sp1 measure).d_term
        = (epid_pid_calc ctx sp2 measure).d_term
    ∧ (epid_pid_calc ctx sp1 measure).xk_1
        = (epid_pid_calc ctx sp2 measure).xk_1
    ∧ (epid_pid_calc ctx sp1 measure).xk_2
        = (epid_pid_calc ctx sp2 measure).xk_2
    ∧ (epid_pid_calc ctx sp1 measure).y_out
        = (epid_pid_calc ctx sp2 measure).y_out
    ∧ (epid_pid_calc ctx sp1 measure).kp = (epid_pid_calc ctx sp2 measure).kp
    ∧ (epid_pid_calc ctx sp1 measure).ki = (epid_pid_calc ctx sp2 measure).ki
    ∧ (epid_pid_calc ctx sp1 measure).kd
        = (epid_pid_calc ctx sp2 measure).kd := by
  simp [epid_pid_calc]

/-! ## Claims about `epid_init_T` -/

/-- C6: `epid_init_T` returns `EPID_ERR_INIT` whenever `ti ≤ 0`,
`sample_period ≤ 0` or `td < 0`; otherwise it delegates to `epid_init` with
the derived gains `ki = (kp * sample_period) / ti`,
`kd = kp * (td / sample_period)` and unchanged seeds; at
`kp = 500, ti = 50, td = 20, sample_period = 1/10` the delegated gains are
exactly `ki = 1` and `kd = 100000`. -/
theorem epid_init_T_derivation (v n : Bool) (ctx : epid_t)
    (x1 x2 yp kp : EF) (ti td sp : ℚ) :
    ((ti ≤ 0 ∨ sp ≤ 0 ∨ td < 0) →
      (epid_init_T v n ctx x1 x2 yp kp (EF.fin ti) (EF.fin td)
          (EF.fin sp)).1 = EPID_ERR_INIT)
    ∧ (0 < ti → 0 < sp → 0 ≤ td →
        epid_init_T v n ctx x1 x2 yp kp (EF.fin ti) (EF.fin td) (EF.fin sp)
          = epid_init v n ctx x1 x2 yp kp ((kp * EF.fin sp) / EF.fin ti)
              (kp * (EF.fin td / EF.fin sp)))
    ∧ epid_init_T v n ctx x1 x2 yp (EF.fin 500) (EF.fin 50) (EF.fin 20)
          (EF.fin (1/10))
        = epid_init v n ctx x1 x2 yp (EF.fin 500) (EF.fin 1)
            (EF.fin 100000) := by
  refine ⟨?_, ?_, ?_⟩
  · rintro (h | h | h) <;>
      simp [epid_init_T, EPID_FP_ZERO, h, h.le]
  · intro h1 h2 h3
    simp [epid_init_T, EPID_FP_ZERO, not_le.mpr h1, not_le.mpr h2,
      not_lt.mpr h3]
  · have e1 : ((EF.fin 500 * EF.fin (1/10)) / EF.fin 50 : EF) = EF.fin 1 := by
      norm_num
    have e2 : (EF.fin 500 * (EF.fin 20 / EF.fin (1/10)) : EF)
        = EF.fin 100000 := by
      norm_num
    simp only [epid_init_T, EPID_FP_ZERO, EF.isFinite_fin, EF.le_fin_fin,
      EF.lt_fin_fin, e1, e2]
    norm_num

/-- C6 (witness): the error branch at `ti = -1`. -/
theorem epid_init_T_derivation_witness :
    (epid_init_T true false ctx0 (EF.fin 0) (EF.fin 0) (EF.fin 0)
        (EF.fin 1) (EF.fin (-1)) (EF.fin 0) (EF.fin 1)).1
      = EPID_ERR_INIT :=
  (epid_init_T_derivation true false ctx0 (EF.fin 0) (EF.fin 0) (EF.fin 0)
      (EF.fin 1) (-1) 0 1).1 (Or.inl (by norm_num))

/-! ## Claims about the low-pass filter -/

/-- C7: `epid_util_lpf_init` with `0 < a < 1` and a non-null context
succeeds and seeds `y = a * x_0` (the scaled seed); `a ≤ 0` or `a ≥ 1`
yields `EPID_ERR_INIT`; `epid_util_lpf_calc` replaces `y` by
`y + a * (input - y)`; concretely `a = 1/2, x_0 = 10` seeds `y = 5` and a
subsequent update with `input = 20` yields `y = 25/2`. -/
theorem epid_util_lpf_spec (v n : Bool) (ctx : epid_lpf_t)
    (a x0 : ℚ) (lpf : epid_lpf_t) (input : EF) :
    (0 < a → a < 1 →
      epid_util_lpf_init v false ctx (EF.fin a) (EF.fin x0)
        = (EPID_ERR_NONE,
            { smoothing_factor := EF.fin a, y := EF.fin (a * x0) }))
    ∧ ((a ≤ 0 ∨ 1 ≤ a) →
        (epid_util_lpf_init v n ctx (EF.fin a) (EF.fin x0)).1
          = EPID_ERR_INIT)
    ∧ epid_util_lpf_calc lpf input
        = { lpf with y := lpf.y + lpf.smoothing_factor * (input - lpf.y) }
    ∧ (epid_util_lpf_init true false lpf0 (EF.fin (1/2)) (EF.fin 10)).2.y
        = EF.fin 5
    ∧ (epid_util_lpf_calc
          (epid_util_lpf_init true false lpf0 (EF.fin (1/2))
            (EF.fin 10)).2 (EF.fin 20)).y = EF.fin (25/2) := by
  refine ⟨?_, ?_, rfl, ?_, ?_⟩
  · intro h1 h2
    simp [epid_util_lpf_init, EPID_FP_ZERO, EPID_FP_ONE,
      not_le.mpr h1, not_le.mpr h2]
  · rintro (h | h) <;>
      simp [epid_util_lpf_init, EPID_FP_ZERO, EPID_FP_ONE, h]
  · norm_num [epid_util_lpf_init, EPID_FP_ZERO, EPID_FP_ONE, lpf0]
  · norm_num [epid_util_lpf_init, epid_util_lpf_calc, EPID_FP_ZERO,
      EPID_FP_ONE, lpf0]

/-- C7 (witness): the success branch at `a = 1/2`, `x_0 = 10`. -/
theorem epid_util_lpf_spec_witness :
    epid_util_lpf_init true false lpf0 (EF.fin (1/2)) (EF.fin 10)
      = (EPID_ERR_NONE,
          { smoothing_factor := EF.fin (1/2), y := EF.fin (1/2 * 10) }) :=
  (epid_util_lpf_spec true false lpf0 (1/2) 10 lpf0 EF.nan).1
    (by norm_num) (by norm_num)

/-! ## Claims about the summation step -/

lemma EF.not_nan_fin {x : EF} (h : x.isNan = false) : ∃ q, x = EF.fin q := by
  cases x with
  | nan => simp at h
  | fin q => exact ⟨q, rfl⟩

lemma epid_pi_acc_not_nan {ctx : epid_t} (h : ctx.y_out.isNan = false) :
    (epid_pi_acc true ctx).isNan = false := by
  simp only [epid_pi_acc, Bool.true_and]
  split_ifs with hg
  · exact h
  · simp only [Bool.or_eq_true, not_or, Bool.not_eq_true] at hg
    exact hg.1.1

lemma epid_pid_acc_not_nan {ctx : epid_t} (h : ctx.y_out.isNan = false) :
    (epid_pid_acc true ctx).isNan = false := by
  simp only [epid_pid_acc, Bool.true_and]
  split_ifs with hg
  · exact h
  · simp only [Bool.or_eq_true, not_or, Bool.not_eq_true] at hg
    exact hg.1.1.1

/-- A context whose stored output is already NaN: the pre-existing NaN
survives both the rollback (which restores the same NaN) and the clamp
(NaN compares false against both bounds). -/
def ctxNan : epid_t := { ctx0 with y_out := EF.nan }

/-- C2 (counterexample): with finite checking enabled, bounds `[0, 1]` and a
context whose `y_out` is NaN (all terms zero), `epid_pi_sum` leaves `y_out`
NaN, which does not lie within the bounds. -/
theorem epid_sum_nan_escapes_bounds :
    (epid_pi_sum true ctxNan (EF.fin 0) (EF.fin 1)).y_out = EF.nan
    ∧ EF.le (EF.fin 0)
        ((epid_pi_sum true ctxNan (EF.fin 0) (EF.fin 1)).y_out) = false := by
  decide

/-- C2 (amended): with finite checking enabled, for every context whose
pre-call `y_out` is not NaN and every bounds pair `out_min ≤ out_max`,
the stored `y_out` immediately after `epid_pi_sum` and after `epid_pid_sum`
lies within `[out_min, out_max]`. -/
theorem epid_sum_output_bounded (ctx : epid_t) (out_min out_max : EF)
    (hy : ctx.y_out.isNan = false) (hb : EF.le out_min out_max = true) :
    (EF.le out_min ((epid_pi_sum true ctx out_min out_max).y_out) = true
      ∧ EF.le ((epid_pi_sum true ctx out_min out_max).y_out) out_max = true)
    ∧ (EF.le out_min ((epid_pid_sum true ctx out_min out_max).y_out) = true
      ∧ EF.le ((epid_pid_sum true ctx out_min out_max).y_out) out_max
          = true) := by
  obtain ⟨mn, mx, hmn, hmx, hle⟩ := EF.of_le_true hb
  subst hmn hmx
  constructor
  · obtain ⟨q, hq⟩ := EF.not_nan_fin (epid_pi_acc_not_nan hy)
    simp only [epid_pi_sum, hq]
    exact epid_limit_mem q mn mx hle
  · obtain ⟨q, hq⟩ := EF.not_nan_fin (epid_pid_acc_not_nan hy)
    simp only [epid_pid_sum, hq]
    exact epid_limit_mem q mn mx hle

/-- C2 (witness): the amended theorem at a concrete zero context with
bounds `[0, 1]`. -/
theorem epid_sum_output_bounded_witness :
    (EF.le (EF.fin 0)
        ((epid_pi_sum true ctx0 (EF.fin 0) (EF.fin 1)).y_out) = true
      ∧ EF.le ((epid_pi_sum true ctx0 (EF.fin 0) (EF.fin 1)).y_out)
          (EF.fin 1) = true)
    ∧ (EF.le (EF.fin 0)
        ((epid_pid_sum true ctx0 (EF.fin 0) (EF.fin 1)).y_out) = true
      ∧ EF.le ((epid_pid_sum true ctx0 (EF.fin 0) (EF.fin 1)).y_out)
          (EF.fin 1) = true) :=
  epid_sum_output_bounded ctx0 (EF.fin 0) (EF.fin 1) (by decide) (by decide)

/-- A context with finite `y_out = 10` outside the bounds `[0, 5]` used
below, and a NaN P-term. -/
def ctxC4 : epid_t := { ctx0 with y_out := EF.fin 10, p_term := EF.nan }

/-- C4 (counterexample): finite checking enabled, `p_term` NaN before the
call, yet after `epid_pi_sum` with bounds `[0, 5]` the output is the clamped
value `5`, not the pre-call value `10`: the rollback is followed by the
clamp. -/
theorem epid_sum_rollback_clamped :
    ctxC4.p_term.isNan = true
    ∧ ctxC4.y_out = EF.fin 10
    ∧ (epid_pi_sum true ctxC4 (EF.fin 0) (EF.fin 5)).y_out = EF.fin 5
    ∧ (epid_pi_sum true ctxC4 (EF.fin 0) (EF.fin 5)).y_out
        ≠ ctxC4.y_out := by
  decide

/-- C4 (amended): with finite checking enabled, if a summed term or the
newly accumulated output is NaN, then — provided the pre-call `y_out` lies
within the supplied bounds (so the final clamp does not move it) — `y_out`
after `epid_pi_sum` / `epid_pid_sum` equals its pre-call value. -/
theorem epid_sum_nan_rollback (ctx : epid_t) (out_min out_max : EF)
    (h1 : EF.le out_min ctx.y_out = true)
    (h2 : EF.le ctx.y_out out_max = true) :
    ((ctx.p_term.isNan = true ∨ ctx.i_term.isNan = true
        ∨ (ctx.y_out + (ctx.p_term + ctx.i_term)).isNan = true) →
      (epid_pi_sum true ctx out_min out_max).y_out = ctx.y_out)
    ∧ ((ctx.p_term.isNan = true ∨ ctx.i_term.isNan = true
        ∨ ctx.d_term.isNan = true
        ∨ (ctx.y_out + (ctx.p_term + ctx.i_term + ctx.d_term)).isNan
            = true) →
      (epid_pid_sum true ctx out_min out_max).y_out = ctx.y_out) := by
  obtain ⟨mn, y, hmn, hy, hle1⟩ := EF.of_le_true h1
  rw [hy] at h2
  obtain ⟨y', mx, hy', hmx, hle2⟩ := EF.of_le_true h2
  injection hy' with hyy
  rw [← hyy] at hle2
  subst hmn hmx
  constructor
  · intro hd
    have hguard : ((ctx.y_out + (ctx.p_term + ctx.i_term)).isNan
        || ctx.p_term.isNan || ctx.i_term.isNan) = true := by
      rcases hd with h | h | h <;> simp [h]
    have hacc : epid_pi_acc true ctx = ctx.y_out := by
      simp [epid_pi_acc, hguard]
    simp only [epid_pi_sum, hacc, hy]
    exact epid_limit_id y mn mx hle1 hle2
  · intro hd
    have hguard : ((ctx.y_out + (ctx.p_term + ctx.i_term
        + ctx.d_term)).isNan || ctx.p_term.isNan || ctx.i_term.isNan
        || ctx.d_term.isNan) = true := by
      rcases hd with h | h | h | h <;> simp [h]
    have hacc : epid_pid_acc true ctx = ctx.y_out := by
      simp [epid_pid_acc, hguard]
    simp only [epid_pid_sum, hacc, hy]
    exact epid_limit_id y mn mx hle1 hle2

/-- A context with `y_out = 3` inside the bounds `[0, 5]` used below, and a
NaN P-term. -/
def ctxW4 : epid_t := { ctx0 with y_out := EF.fin 3, p_term := EF.nan }

/-- C4 (witness): the amended theorem at a concrete context (`y_out = 3`,
NaN `p_term`, bounds `[0, 5]`). -/
theorem epid_sum_nan_rollback_witness :
    (epid_pi_sum true ctxW4 (EF.fin 0) (EF.fin 5)).y_out = ctxW4.y_out :=
  (epid_sum_nan_rollback ctxW4 (EF.fin 0) (EF.fin 5)
      (by decide) (by decide)).1 (Or.inl (by decide))

/-- C9: both summation steps are total functions of the context and the
(possibly inverted) bounds — no input is rejected — and the clamp checks the
upper bound first: the accumulated value is set to `out_max` if it exceeds
`out_max`, otherwise to `out_min` if it is below `out_min`, otherwise kept.
This holds for every bounds pair, `out_min > out_max` included. -/
theorem epid_sum_clamp_order (v : Bool) (ctx : epid_t)
    (out_min out_max : EF) :
    (EF.lt out_max (epid_pi_acc v ctx) = true →
      (epid_pi_sum v ctx out_min out_max).y_out = out_max)
    ∧ (EF.lt out_max (epid_pi_acc v ctx) = false →
      EF.lt (epid_pi_acc v ctx) out_min = true →
      (epid_pi_sum v ctx out_min out_max).y_out = out_min)
    ∧ (EF.lt out_max (epid_pi_acc v ctx) = false →
      EF.lt (epid_pi_acc v ctx) out_min = false →
      (epid_pi_sum v ctx out_min out_max).y_out = epid_pi_acc v ctx)
    ∧ (EF.lt out_max (epid_pid_acc v ctx) = true →
      (epid_pid_sum v ctx out_min out_max).y_out = out_max)
    ∧ (EF.lt out_max (epid_pid_acc v ctx) = false →
      EF.lt (epid_pid_acc v ctx) out_min = true →
      (epid_pid_sum v ctx out_min out_max).y_out = out_min)
    ∧ (EF.lt out_max (epid_pid_acc v ctx) = false →
      EF.lt (epid_pid_acc v ctx) out_min = false →
      (epid_pid_sum v ctx out_min out_max).y_out = epid_pid_acc v ctx) := by
  refine ⟨fun h1 => ?_, fun h1 h2 => ?_, fun h1 h2 => ?_,
    fun h1 => ?_, fun h1 h2 => ?_, fun h1 h2 => ?_⟩ <;>
    simp [epid_pi_sum, epid_pid_sum, epid_limit, h1]
  · simp [h2]
  · simp [h2]
  · simp [h2]
  · simp [h2]

/-- A context with `y_out = 10` and zero terms, whose accumulated output
exceeds both of the inverted bounds used in the witness below. -/
def ctx9 : epid_t := { ctx0 with y_out := EF.fin 10 }

/-- C9 (witness): with inverted bounds `out_min = 5 > 0 = out_max` and an
accumulated value `10` above both, the upper bound wins: `y_out = 0`. -/
theorem epid_sum_clamp_order_witness :
    (epid_pi_sum false ctx9 (EF.fin 5) (EF.fin 0)).y_out = EF.fin 0 :=
  (epid_sum_clamp_order false ctx9 (EF.fin 5) (EF.fin 0)).1
    (by norm_num [epid_pi_acc, ctx9, ctx0])
